import Mathlib

/-!
Verification of the FinamPy triangular-arbitrage core against its
natural-language specification.

Prices are modelled as rationals (`ℚ`), the ideal real-number semantics of
the code's float formulas.  Every concrete scenario below keeps each compared
quantity far from its comparison threshold, so the float program takes the
same branches as the rational model (no comparison in any scenario is decided
by less than a tenth of a point, while the float error of these formulas is
many orders of magnitude smaller).  Stateful Python code is modelled by
explicit state passing;
broker calls (order placement, cancellation) are modelled by oracles passed in
as functions.  Each definition is a direct translation of the function of the
same name in the repository; file and line references are given in the doc
comments.
-/

namespace FinamArb

/-- Model of `ArbTick` (src/core/arb_models.py, lines 14-32).  The Python
dataclass stores `symbol, bid, ask, last, volume, timestamp`; the timestamp
(a `datetime`) is modelled as an integer clock value. -/
structure ArbTick where
  symbol : String
  bid : ℚ := 0
  ask : ℚ := 0
  last : ℚ := 0
  volume : Int := 0
  timestamp : Int := 0
  deriving Repr, DecidableEq

instance : Inhabited ArbTick := ⟨⟨"", 0, 0, 0, 0, 0⟩⟩

/-- Model of the `spread_points` property (src/core/arb_models.py, lines
24-28): `(ask - bid) / 0.0001` when both sides are positive, else `0`.
The divisor is the hard-coded literal `0.0001`, identical for every
instrument. -/
def ArbTick.spread_points (t : ArbTick) : ℚ :=
  if t.ask > 0 ∧ t.bid > 0 then (t.ask - t.bid) / 0.0001 else 0

/-- Model of the `is_valid` property (src/core/arb_models.py, lines 30-32). -/
def ArbTick.is_valid (t : ArbTick) : Bool :=
  decide (t.bid > 0) && decide (t.ask > 0) && decide (t.last > 0)

/-- Model of `POINT` (src/core/arb_calculator.py, line 17): the single global
point-size constant used by `calc_deviations` for every instrument. -/
def POINT : ℚ := 0.0001

/-- Model of `ARB_TRIANGLE_FORMULAS` (src/config/arb_config.py, line 93):
`0` marks a multiplicative triangle, `1` a divisional one. -/
def ARB_TRIANGLE_FORMULAS : List Nat := [0, 0, 0, 1, 1, 1]

/-- Model of `ARB_TRIANGLE_PAIRS` (src/config/arb_config.py, lines 84-91):
the currency keys of the three legs of each triangle template. -/
def ARB_TRIANGLE_PAIRS : List (List String) :=
  [["USD", "EUR", "EUR"], ["USD", "JPY", "JPY"], ["USD", "JPY", "JPY"],
   ["EUR", "USD", "EUR"], ["GBP", "USD", "GBP"], ["CNY", "USD", "CNY"]]

/-- Model of `ARB_TRIANGLE_DESCRIPTIONS` (src/config/arb_config.py,
lines 95-102). -/
def ARB_TRIANGLE_DESCRIPTIONS : List String :=
  ["USD×EUR = EUR", "USD×JPY = JPY", "CHF×JPY = JPY",
   "EUR/USD = EUR", "GBP/USD = GBP", "CNY/USD = CNY"]

/-- Model of `calc_deviations` (src/core/arb_calculator.py, lines 20-34).
Returns `(dev_buy, dev_sell, sig_type)`.  A list whose length is not 3 gives
`(0, 0, "ERROR")` as in the source.  Indexing `ARB_TRIANGLE_FORMULAS` out of
range raises in Python; the model defaults to the divisional branch there,
which no claim exercises. -/
def calc_deviations (tri_type : Nat) (ticks : List ArbTick) : ℚ × ℚ × String :=
  if ticks.length ≠ 3 then (0, 0, "ERROR")
  else
    let t0 := ticks.getD 0 default
    let t1 := ticks.getD 1 default
    let t2 := ticks.getD 2 default
    if ARB_TRIANGLE_FORMULAS.getD tri_type 1 = 0 then
      ((t2.bid - t0.ask * t1.ask) / POINT,
       (t0.bid * t1.bid - t2.ask) / POINT, "MUL")
    else
      (if t0.ask > 0 then (t2.bid / t0.ask - t1.ask) / POINT else 0,
       if t0.bid > 0 then (t1.bid - t2.ask / t0.bid) / POINT else 0, "DIV")

/-- Model of `check_spreads` (src/core/arb_calculator.py, lines 37-39). -/
def check_spreads (ticks : List ArbTick) (max_spread : ℚ) : Bool :=
  ticks.all fun t => decide (t.spread_points ≤ max_spread)

/-- Model of `ArbConfig` (src/config/arb_config.py, lines 21-37), with the
source's default values. -/
structure ArbConfig where
  LotSize : ℚ := 0.1
  MaxSpread : ℚ := 2.0
  MinDeviation : ℚ := 2.0
  LossCompensationThreshold : ℚ := 5.0
  TargetProfit : ℚ := 10.0
  MaxLoss : ℚ := -20.0
  MaxTriangles : Nat := 3
  EnableCompensation : Bool := true
  CompensationLotMultiplier : ℚ := 0.6
  CloseAllOnTargetProfit : Bool := true
  TimeCloseHours : ℚ := 4.0
  PaperTrading : Bool := false
  ScanInterval : ℚ := 3.0

/-- An `ArbConfig()` built from all defaults, as `run_arbitrage.py` does. -/
def defaultArbConfig : ArbConfig := {}

/-- Model of `ArbTriangle` (src/core/arb_models.py, lines 35-56), the slot
record of the executor.  `open_time` (a `datetime`) is an integer clock. -/
structure ArbTriangle where
  triangle_type : Int := -1
  direction : Int := 0
  tickets : List String := ["", "", ""]
  entry_prices : List ℚ := [0, 0, 0]
  lots : List ℚ := [0, 0, 0]
  deviation : ℚ := 0
  current_profit : ℚ := 0
  open_time : Int := 0
  active : Bool := false
  compensation : Bool := false
  parent_index : Int := -1
  total_volume : ℚ := 0
  symbols : List String := []
  deriving Repr

instance : Inhabited ArbTriangle := ⟨{}⟩

/-- Model of `ArbOpportunity` (src/core/arb_models.py, lines 59-67). -/
structure ArbOpportunity where
  triangle_type : Nat
  direction : Int
  deviation : ℚ
  ticks : List ArbTick
  signal_type : String
  description : String
  deriving Repr

/-- Rounding half to even at integer precision, as Python `round` does on an
exactly representable value. -/
def roundHalfEven (y : ℚ) : ℤ :=
  if Int.fract y < 1 / 2 then ⌊y⌋
  else if 1 / 2 < Int.fract y then ⌊y⌋ + 1
  else if ⌊y⌋ % 2 = 0 then ⌊y⌋ else ⌊y⌋ + 1

/-- Model of Python `round(x, 2)`: round half to even at two decimals. -/
def pyRound2 (x : ℚ) : ℚ := (roundHalfEven (x * 100) : ℚ) / 100

/-- Model of `calc_lots` (src/core/arb_calculator.py, lines 42-57).  The
`direction` argument is unused there as well. -/
def calc_lots (tri_type : Nat) (_direction : Int) (base_lot : ℚ) : List ℚ :=
  let lots :=
    if tri_type = 0 then [base_lot, base_lot * 0.95, base_lot * 1.02]
    else if tri_type = 1 then [base_lot, base_lot * 1.05, base_lot * 0.98]
    else if tri_type = 2 then [base_lot, base_lot, base_lot * 0.9]
    else [base_lot, base_lot, base_lot * 1.03]
  lots.map pyRound2

/-- The per-template body of `find_opportunities` (src/core/arb_calculator.py,
lines 72-92), once the ticks for template `tri` have been fetched: the
validity filter, the spread filter, then the two directional deviation tests
(BUY first, strict `>` against `MinDeviation`, no absolute value). -/
def calcEmitOpp (tri : Nat) (ticks : List ArbTick) (config : ArbConfig) :
    Option ArbOpportunity :=
  if ticks.isEmpty || !(ticks.all ArbTick.is_valid) then none
  else if !(check_spreads ticks config.MaxSpread) then none
  else
    let d := calc_deviations tri ticks
    if d.1 > config.MinDeviation then
      some ⟨tri, 1, d.1, ticks, d.2.2,
        (ARB_TRIANGLE_DESCRIPTIONS.getD tri "") ++ " BUY"⟩
    else if d.2.1 > config.MinDeviation then
      some ⟨tri, -1, d.2.1, ticks, d.2.2,
        (ARB_TRIANGLE_DESCRIPTIONS.getD tri "") ++ " SELL"⟩
    else none

/-- The final `opportunities.sort(key=lambda x: abs(x.deviation),
reverse=True)` of `find_opportunities` (src/core/arb_calculator.py, line 94).
Python's sort is stable and `reverse=True` keeps equal keys in list order, so
it is modelled by the stable `List.mergeSort` with the descending-key
comparison. -/
def opportunitySort (l : List ArbOpportunity) : List ArbOpportunity :=
  l.mergeSort fun a b => decide (|b.deviation| ≤ |a.deviation|)

/-- Model of `find_opportunities` (src/core/arb_calculator.py, lines 60-95).
`get_ticks` stands for the `get_ticks_func` callback, returning `none` where
Python returns `None`; templates are visited in ascending index order. -/
def find_opportunities (triangles_state : List ArbTriangle)
    (get_ticks : Nat → Option (List ArbTick)) (config : ArbConfig) :
    List ArbOpportunity :=
  let active_count := (triangles_state.filter (·.active)).length
  if active_count ≥ config.MaxTriangles then []
  else
    opportunitySort <|
      (List.range ARB_TRIANGLE_PAIRS.length).filterMap fun tri =>
        if triangles_state.any fun t => t.active && t.triangle_type == Int.ofNat tri
        then none
        else (get_ticks tri).bind fun ticks => calcEmitOpp tri ticks config

/-! Models of the stand-alone trader `src/arbitrage_trader.py`. -/

/-- Model of `CurrencyPair` (src/arbitrage_trader.py, lines 41-54). -/
structure CurrencyPair where
  base_currency : String
  quote_currency : String
  symbol : String
  name : String := ""
  bid : ℚ := 0
  ask : ℚ := 0
  last : ℚ := 0
  deriving Repr, DecidableEq

/-- Model of `Triangle` (src/arbitrage_trader.py, lines 57-74): three pairs,
three operations (the strings `"BUY"`/`"SELL"`) and the formula kind
(`"MUL"`/`"DIV"`).  The mutable rate/deviation fields are outputs of
`calculate_triangle` and are not part of the model state. -/
structure Triangle where
  pairs : List CurrencyPair
  operations : List String
  formula_type : String
  deriving Repr

/-- The virtual-pair test the trader performs with
`pair.symbol.startswith('VIRTUAL')`, written on the underlying character
sequence (a Python string is a sequence of code points). -/
def isVirtual (p : CurrencyPair) : Bool :=
  p.symbol.data.take 7 == "VIRTUAL".data

/-- The real-pair lookup repeated at src/arbitrage_trader.py lines 360-364,
422-426 and 512-516: the first catalogued pair whose base currency is the
virtual pair's quote currency and whose quote currency is RUB.  `pairs` is
`self.currency_pairs.values()` in iteration order. -/
def findRealPair (pairs : List CurrencyPair) (p : CurrencyPair) :
    Option CurrencyPair :=
  pairs.find? fun rp =>
    rp.base_currency == p.quote_currency && rp.quote_currency == "RUB"

/-- Model of `ArbitrageTrader.check_spread` (src/arbitrage_trader.py, lines
348-354): reject non-positive sides, else compare `(ask-bid)/0.0001` with
`max_spread_points`.  The divisor is again the global constant. -/
def check_spread (max_spread_points : ℚ) (p : CurrencyPair) : Bool :=
  if p.ask ≤ 0 ∨ p.bid ≤ 0 then false
  else decide ((p.ask - p.bid) / 0.0001 ≤ max_spread_points)

/-- Model of `ArbitrageTrader.get_effective_rate` (src/arbitrage_trader.py,
lines 356-376).  For a virtual pair the scanner prices BUY from `1/ask` and
SELL from `1/bid` of the underlying real pair; for a real pair BUY takes the
ask and SELL the bid. -/
def get_effective_rate (pairs : List CurrencyPair) (p : CurrencyPair)
    (operation : String) : ℚ :=
  if isVirtual p then
    match findRealPair pairs p with
    | some real =>
        if operation == "BUY" then (if real.ask > 0 then 1 / real.ask else 0)
        else (if real.bid > 0 then 1 / real.bid else 0)
    | none => 0
  else if operation == "BUY" then p.ask else p.bid

/-- Model of `ArbitrageTrader.calculate_triangle` (src/arbitrage_trader.py,
lines 378-410).  Returns `(synthetic, market, deviation_points,
deviation_percent)`; any non-positive effective rate yields all zeros. -/
def calculate_triangle (pairs : List CurrencyPair) (t : Triangle) :
    ℚ × ℚ × ℚ × ℚ :=
  let dummy : CurrencyPair := { base_currency := "", quote_currency := "", symbol := "" }
  let p1 := t.pairs.getD 0 dummy
  let p2 := t.pairs.getD 1 dummy
  let p3 := t.pairs.getD 2 dummy
  let rate1 := get_effective_rate pairs p1 (t.operations.getD 0 "")
  let rate2 := get_effective_rate pairs p2 (t.operations.getD 1 "")
  let rate3 := get_effective_rate pairs p3 (t.operations.getD 2 "")
  if rate1 ≤ 0 ∨ rate2 ≤ 0 ∨ rate3 ≤ 0 then (0, 0, 0, 0)
  else
    let synthetic :=
      if t.formula_type == "MUL" then rate1 * rate2
      else if rate2 > 0 then rate1 / rate2 else 0
    let market := rate3
    if market > 0 ∧ synthetic > 0 then
      (synthetic, market, (market - synthetic) / 0.0001,
       (market - synthetic) / synthetic * 100)
    else (synthetic, market, 0, 0)

/-- Model of `ArbitrageFinder.calculate_triangle_rate`
(src/arbitrage_finder.py, lines 314-360).  The finder's `Triangle` has the
same `pairs`/`operations`/`formula_type` shape as the trader's.  Both trade
directions compute `(market − synthetic) / 0.0001`; choosing the direction
only swaps which sides (bid/ask) are read.  Returns `(synthetic, market,
deviation_points)`.  The source unpacks `p1, p2, p3 = triangle.pairs` and
every triangle the finder builds has exactly three legs; the model reads
the three legs positionally. -/
def calculate_triangle_rate (t : Triangle) : ℚ × ℚ × ℚ :=
  let dummy : CurrencyPair :=
    { base_currency := "", quote_currency := "", symbol := "" }
  let p1 := t.pairs.getD 0 dummy
  let p2 := t.pairs.getD 1 dummy
  let p3 := t.pairs.getD 2 dummy
  let sm :=
    if t.formula_type == "MUL" then
      if t.operations.getD 0 "" == "BUY" &&
          t.operations.getD 1 "" == "BUY" then
        (p1.ask * p2.ask, p3.bid)
      else
        (p1.bid * p2.bid, p3.ask)
    else
      if t.operations.getD 0 "" == "BUY" &&
          t.operations.getD 1 "" == "SELL" then
        (if p2.bid > 0 then p1.ask / p2.bid else 0, p3.bid)
      else
        (if p2.ask > 0 then p1.bid / p2.ask else 0, p3.ask)
  if sm.2 > 0 ∧ sm.1 > 0 then (sm.1, sm.2, (sm.2 - sm.1) / 0.0001)
  else (sm.1, sm.2, 0)

/-- The quote-presence filter of `ArbitrageTrader.find_opportunities`
(src/arbitrage_trader.py, lines 417-435): every leg must have positive bid
and ask, a virtual leg testing its resolved real pair. -/
def traderQuotesPresent (pairs : List CurrencyPair) (t : Triangle) : Bool :=
  t.pairs.all fun p =>
    if isVirtual p then
      match findRealPair pairs p with
      | some rp => decide (rp.bid > 0) && decide (rp.ask > 0)
      | none => false
    else decide (p.bid > 0) && decide (p.ask > 0)

/-- The spread filter of `ArbitrageTrader.find_opportunities`
(src/arbitrage_trader.py, lines 437-446): only real (non-virtual) legs are
spread-checked. -/
def traderSpreadOk (max_spread_points : ℚ) (t : Triangle) : Bool :=
  t.pairs.all fun p =>
    if isVirtual p then true else check_spread max_spread_points p

/-- The per-triangle emission decision of `ArbitrageTrader.find_opportunities`
(src/arbitrage_trader.py, lines 416-456): presence filter, spread filter,
then `abs(dev_points) >= self.min_deviation_points`. -/
def traderEmits (pairs : List CurrencyPair) (t : Triangle)
    (max_spread_points min_deviation_points : ℚ) : Bool :=
  traderQuotesPresent pairs t && traderSpreadOk max_spread_points t &&
    decide (|(calculate_triangle pairs t).2.2.1| ≥ min_deviation_points)

/-- The entry price `ArbitrageTrader.execute_triangle` records for one leg
(src/arbitrage_trader.py, lines 503-527): for a virtual leg it inverts the
real pair's bid on BUY and ask on SELL (`none` models the `return False`
taken when no real pair resolves); a real leg records ask on BUY, bid on
SELL. -/
def execEntryPrice (pairs : List CurrencyPair) (p : CurrencyPair)
    (operation : String) : Option ℚ :=
  if isVirtual p then
    (findRealPair pairs p).map fun real =>
      let price := if operation == "BUY" then real.bid else real.ask
      if price > 0 then 1 / price else 0
  else some (if operation == "BUY" then p.ask else p.bid)

/-- The close decision `ArbitrageTrader.monitor_active_triangles` takes for
one active triangle with running profit `profit` (src/arbitrage_trader.py,
lines 646-657): close on take-profit or stop-loss only.  The triangle's
`open_time` and the current time are in scope there but are never consulted:
no elapsed-time condition exists in the code. -/
def monitorCloses (take_profit_points stop_loss_points lot_size profit : ℚ) :
    Bool :=
  decide (profit ≥ take_profit_points * lot_size * 1000) ||
    decide (profit ≤ -(stop_loss_points * lot_size * 1000))

/-! Model of the execution engine `src/core/arb_executor.py`. -/

/-- Model of `ARB_CURRENCY_PAIRS` (src/config/arb_config.py, lines 53-66) as
an association list in the source's insertion order. -/
def ARB_CURRENCY_PAIRS : List (String × String) :=
  [("USD", "USD000000TOD@CETS"), ("EUR", "EUR_RUB__TOD@CETS"),
   ("CNY", "CNY000000TOD@CETS"), ("GBP", "GBP000000TOD@CETS"),
   ("CHF", "CHF000000TOD@CETS"), ("JPY", "JPY000000TOD@CETS"),
   ("HKD", "HKD000000TOD@CETS"), ("BYN", "BYN000000TOD@CETS"),
   ("KZT", "KZT000000TOD@CETS"), ("TRY", "TRY000000TOD@CETS"),
   ("AUD", "AUD000000TOD@CETS"), ("CAD", "CAD000000TOD@CETS")]

/-- Python `symbol.split('@')[0]`: the characters before the first `@`. -/
def symbolKey (s : String) : String :=
  ⟨s.data.takeWhile fun c => c != '@'⟩

/-- The leg order symbols of `ArbExecutor.open_triangle` (src/core/
arb_executor.py, lines 51-54): each tick symbol is cut at `@` and looked up
in `ARB_CURRENCY_PAIRS`.  A key Python would not find (a `KeyError`, raised
before any order is placed) is modelled as the empty symbol. -/
def legSymbols (opp : ArbOpportunity) : List String :=
  [0, 1, 2].map fun i =>
    (ARB_CURRENCY_PAIRS.lookup
      (symbolKey (opp.ticks.getD i default).symbol)).getD ""

/-- The entry prices `ArbExecutor.open_triangle` records (src/core/
arb_executor.py, lines 56-69), chosen by signal type and direction. -/
def legPrices (opp : ArbOpportunity) : List ℚ :=
  let t0 := opp.ticks.getD 0 default
  let t1 := opp.ticks.getD 1 default
  let t2 := opp.ticks.getD 2 default
  if opp.signal_type == "MUL" then
    if opp.direction = 1 then [t0.ask, t1.ask, t2.bid]
    else [t0.bid, t1.bid, t2.ask]
  else
    if opp.direction = 1 then [t0.ask, t1.bid, t2.bid]
    else [t0.bid, t1.ask, t2.ask]

/-- The sequential order-placement loop of `ArbExecutor.open_triangle`
(src/core/arb_executor.py, lines 77-108).  `place i` is the broker call for
leg `i`; `none` stands both for a reply without an order id and for a raised
exception, the two cases that call `_rollback(tickets)` and abort.  Paper
mode appends a synthetic ticket and cannot fail.  `Sum.inl ts` means the
loop aborted and `_rollback` cancelled the already-collected tickets `ts`
one by one, in placement order (lines 128-131); `Sum.inr ts` means all legs
were placed with tickets `ts`. -/
def placeLegs (paper : Bool) (slot : Nat) (now : Int)
    (place : Nat → Option String) :
    List Nat → List String → Sum (List String) (List String)
  | [], tickets => Sum.inr tickets
  | i :: rest, tickets =>
    if paper then
      placeLegs paper slot now place rest
        (tickets ++
          ["PAPER_" ++ toString slot ++ "_" ++ toString i ++ "_" ++ toString now])
    else
      match place i with
      | some ticket => placeLegs paper slot now place rest (tickets ++ [ticket])
      | none => Sum.inl tickets

/-- Everything `ArbExecutor.open_triangle` leaves behind: the returned value
(`some slot` or Python's `None`), the tickets cancelled by `_rollback`, and
the slot table afterwards. -/
structure OpenOutcome where
  result : Option Nat
  cancels : List String
  triangles : List ArbTriangle
  deriving Repr

/-- Model of `ArbExecutor.open_triangle` (src/core/arb_executor.py, lines
34-126).  The slot is the first index whose triangle is not active; without
one the call fails with no state change.  On a placement failure the loop
rolls back and the slot table is left untouched; on success the slot is
overwritten with the new active triangle. -/
def open_triangle (triangles : List ArbTriangle) (config : ArbConfig)
    (opp : ArbOpportunity) (comp : Bool) (parent : Int)
    (place : Nat → Option String) (now : Int) : OpenOutcome :=
  match triangles.findIdx? fun t => !t.active with
  | none => { result := none, cancels := [], triangles := triangles }
  | some slot =>
    let base_lot :=
      if comp then config.LotSize * config.CompensationLotMultiplier
      else config.LotSize
    let lots := calc_lots opp.triangle_type opp.direction base_lot
    match placeLegs config.PaperTrading slot now place [0, 1, 2] [] with
    | Sum.inl cancelled =>
        { result := none, cancels := cancelled, triangles := triangles }
    | Sum.inr tickets =>
        { result := some slot, cancels := [],
          triangles := triangles.set slot
            { triangle_type := Int.ofNat opp.triangle_type,
              direction := opp.direction, tickets := tickets,
              entry_prices := legPrices opp, lots := lots,
              deviation := opp.deviation, open_time := now, active := true,
              compensation := comp, parent_index := parent,
              symbols := legSymbols opp } }

/-- The number of active slots, `sum(1 for t in ... if t.active)`. -/
def activeCount (triangles : List ArbTriangle) : Nat :=
  (triangles.filter (·.active)).length

/-! Model of the quote cache `src/core/arb_monitor.py`. -/

/-- One streamed quote message as `ArbMonitor._handler` sees it
(src/core/arb_monitor.py, lines 37-48): each protobuf field may be missing
or empty, in which case the handler stores `0`; `recvTime` is the
`datetime.now()` taken when the update is handled. -/
structure QuoteUpdate where
  symbol : String
  bid : Option ℚ := none
  ask : Option ℚ := none
  last : Option ℚ := none
  volume : Option Int := none
  recvTime : Int := 0
  deriving Repr

/-- The `ArbTick` that `_handler` builds from a single update: every field
of the stored tick comes from this one update. -/
def tickOfUpdate (u : QuoteUpdate) : ArbTick :=
  { symbol := u.symbol, bid := u.bid.getD 0, ask := u.ask.getD 0,
    last := u.last.getD 0, volume := u.volume.getD 0,
    timestamp := u.recvTime }

/-- The dict assignment `self.ticks[symbol] = tick` of `_handler`
(src/core/arb_monitor.py, line 48): the whole entry for that symbol is
replaced, every other entry untouched. -/
def applyUpdate (m : String → Option ArbTick) (u : QuoteUpdate) :
    String → Option ArbTick :=
  fun s => if s = u.symbol then some (tickOfUpdate u) else m s

/-- The cache contents after a sequence of updates has been handled in
order, starting from the empty dict. -/
def cacheAfter (updates : List QuoteUpdate) : String → Option ArbTick :=
  updates.foldl applyUpdate fun _ => none

/-- Model of `ArbMonitor.get_tick` (src/core/arb_monitor.py, lines 79-81):
map the currency to its symbol and read the cache, `none` for an unknown
currency or an absent entry. -/
def get_tick (updates : List QuoteUpdate) (currency : String) :
    Option ArbTick :=
  match ARB_CURRENCY_PAIRS.lookup currency with
  | some symbol => cacheAfter updates symbol
  | none => none

/-! Concrete quote snapshots used by the counterexamples and witnesses. -/

/-- USD/RUB tick of the spec's worked example (spec §8). -/
def usdrubTick : ArbTick :=
  { symbol := "USD000000TOD@CETS", bid := 79.50, ask := 79.52, last := 79.51 }

/-- EUR/USD tick of the spec's worked example. -/
def eurusdTick : ArbTick :=
  { symbol := "EURUSD_CROSS", bid := 1.0695, ask := 1.0705, last := 1.07 }

/-- EUR/RUB tick of the spec's worked example. -/
def eurrubTick : ArbTick :=
  { symbol := "EUR_RUB__TOD@CETS", bid := 85.10, ask := 85.14, last := 85.12 }

/-- USD/RUB as a trader `CurrencyPair` with the same quotes. -/
def usdrubPair : CurrencyPair :=
  { base_currency := "USD", quote_currency := "RUB",
    symbol := "USD000000TOD@CETS", bid := 79.50, ask := 79.52, last := 79.51 }

/-- EUR/USD as a trader `CurrencyPair` with the same quotes. -/
def eurusdPair : CurrencyPair :=
  { base_currency := "EUR", quote_currency := "USD",
    symbol := "EURUSD_CROSS", bid := 1.0695, ask := 1.0705, last := 1.07 }

/-- EUR/RUB as a trader `CurrencyPair` with the same quotes. -/
def eurrubPair : CurrencyPair :=
  { base_currency := "EUR", quote_currency := "RUB",
    symbol := "EUR_RUB__TOD@CETS", bid := 85.10, ask := 85.14, last := 85.12 }

/-- The MUL forward combination USD/RUB BUY, EUR/USD BUY, EUR/RUB SELL of
the spec's worked example. -/
def c1Triangle : Triangle :=
  { pairs := [usdrubPair, eurusdPair, eurrubPair],
    operations := ["BUY", "BUY", "SELL"], formula_type := "MUL" }

/-- A tick with a wide spread (bid 1, ask 2). -/
def wideTick : ArbTick := { symbol := "X", bid := 1, ask := 2, last := 1 }

/-- A zero-spread tick (bid = ask = 1). -/
def flatTick : ArbTick := { symbol := "F", bid := 1, ask := 1, last := 1 }

/-- The trader's virtual RUB/USD pair: no own tradable instrument, priced as
the reciprocal of USD/RUB. -/
def rubUsdVirtual : CurrencyPair :=
  { base_currency := "RUB", quote_currency := "USD",
    symbol := "VIRTUAL_RUB_USD" }

/-- A zero-spread USD/RUB quote (bid = ask = 80). -/
def flatUsdrubPair : CurrencyPair :=
  { base_currency := "USD", quote_currency := "RUB",
    symbol := "USD000000TOD@CETS", bid := 80, ask := 80, last := 80 }

/-- Leg-0 tick of the both-directions-negative snapshot: 100.0000/100.0001
(spread 1 point). -/
def c5Tick0 : ArbTick :=
  { symbol := "A", bid := 100, ask := 100.0001, last := 1 }

/-- Leg-1 tick of the both-directions-negative snapshot: 1.0000/1.0001
(spread 1 point). -/
def c5Tick1 : ArbTick := { symbol := "B", bid := 1, ask := 1.0001, last := 1 }

/-- Leg-2 tick of the both-directions-negative snapshot: 100.0098/100.0099
(spread 1 point).  Against legs 0-1 this gives dev_buy = (100.0098 −
100.0001 × 1.0001)/0.0001 = −3.0001 and dev_sell = (100 × 1 −
100.0099)/0.0001 = −99: both directions negative, both magnitudes well
above the 2-point minimum, and no quantity anywhere near a comparison
threshold. -/
def c5Tick2 : ArbTick :=
  { symbol := "C", bid := 100.0098, ask := 100.0099, last := 1 }

/-- A concrete opportunity handed to the executor. -/
def c3Opp : ArbOpportunity :=
  { triangle_type := 0, direction := 1, deviation := 0, ticks := [],
    signal_type := "MUL", description := "" }

/-- A slot table with one free (inactive) slot. -/
def c3Slots : List ArbTriangle := [{}]

/-- A broker oracle that fills legs 0 and 1 with tickets A and B and fails
leg 2. -/
def c3Place : Nat → Option String := fun i =>
  if i = 0 then some "A" else if i = 1 then some "B" else none

end FinamArb

namespace FinamArb

/-- Claim C10: with a non-positive bid or ask, `spread_points` is `0`; with
crossed positive prices (`bid > ask > 0`) it is negative; in both cases the
spread filter `check_spreads` accepts the tick for every non-negative bound,
so rejection of such quotes is left entirely to the `is_valid` pre-filter. -/
theorem spread_check_accepts_degenerate_quotes (t : ArbTick) (m : ℚ) :
    ((t.bid ≤ 0 ∨ t.ask ≤ 0) → t.spread_points = 0) ∧
    (0 < t.ask → t.ask < t.bid → t.spread_points < 0) ∧
    (0 ≤ m → (t.bid ≤ 0 ∨ t.ask ≤ 0 ∨ (0 < t.ask ∧ t.ask < t.bid)) →
      check_spreads [t] m = true) := by
  have hzero : ∀ (_ : ¬(t.ask > 0 ∧ t.bid > 0)), t.spread_points = 0 := by
    intro h
    simp [ArbTick.spread_points, h]
  have hneg : 0 < t.ask → t.ask < t.bid → t.spread_points < 0 := by
    intro ha hb
    have hcond : t.ask > 0 ∧ t.bid > 0 := ⟨ha, lt_trans ha hb⟩
    have : t.spread_points = (t.ask - t.bid) / 0.0001 := by
      simp [ArbTick.spread_points, hcond]
    rw [this]
    apply div_neg_of_neg_of_pos (by linarith) (by norm_num)
  refine ⟨?_, hneg, ?_⟩
  · intro h
    apply hzero
    rintro ⟨ha, hb⟩
    rcases h with h | h <;> linarith
  · intro hm h
    have hle : t.spread_points ≤ m := by
      rcases h with h | h | ⟨h1, h2⟩
      · rw [hzero (by rintro ⟨_, hb⟩; linarith)]; exact hm
      · rw [hzero (by rintro ⟨ha, _⟩; linarith)]; exact hm
      · linarith [hneg h1 h2]
    simp [check_spreads, hle]

/-- Claim C2 (code defect): there is no per-instrument point size anywhere in
the data model.  `POINT` is the single global constant `0.0001`;
`spread_points` divides by the same hard-coded `0.0001` whatever the
instrument (it is invariant under relabelling the symbol, and prices a
JPY-style tick with the very same divisor); and `calc_deviations` is likewise
invariant under relabelling all three legs' symbols, so its division by
`POINT` cannot depend on the instrument either. -/
theorem point_size_is_one_global_constant :
    POINT = 0.0001 ∧
    (∀ (t : ArbTick) (s : String),
      ArbTick.spread_points { t with symbol := s } = t.spread_points) ∧
    ArbTick.spread_points
      { symbol := "JPY000000TOD@CETS", bid := 0.55, ask := 0.551,
        last := 0.55 } = 10 ∧
    (∀ (tri : Nat) (t0 t1 t2 : ArbTick) (s0 s1 s2 : String),
      calc_deviations tri
          [{ t0 with symbol := s0 }, { t1 with symbol := s1 },
           { t2 with symbol := s2 }] =
        calc_deviations tri [t0, t1, t2]) := by
  refine ⟨rfl, ?_, ?_, ?_⟩
  · intro t s
    simp [ArbTick.spread_points]
  · norm_num [ArbTick.spread_points]
  · intro tri t0 t1 t2 s0 s1 s2
    simp [calc_deviations]

/-- Claim C4 (code bug): the trader's monitor never force-closes on elapsed
time.  Its close decision consults only the take-profit and stop-loss
thresholds: with the source's defaults (take-profit 5 points, stop-loss 3
points, lot 0.1) a slot whose running profit is 0 is left open, even though
the configuration declares `TimeCloseHours = 4` and the slot in this scenario
has been held for 5 hours (18000 seconds ≥ 4 × 3600). -/
theorem monitor_has_no_max_hold_close :
    defaultArbConfig.TimeCloseHours * 3600 ≤ 5 * 3600 ∧
    monitorCloses 5 3 0.1 0 = false := by
  constructor
  · norm_num [defaultArbConfig]
  · norm_num [monitorCloses]

/-- Claim C1 counterexample: on the spec's own snapshot (USD/RUB 79.50/79.52,
EUR/RUB 85.10/85.14, EUR/USD 1.0695/1.0705) the MUL forward synthetic rate
is 79.52 × 1.0705 = 85.12616, not 85.1566, and the deviation is −261.6
points, not −566.0 — in the trader's `calculate_triangle` and in
`calc_deviations` alike, in exact arithmetic. -/
theorem c1_worked_example_numbers_refuted :
    (calculate_triangle [] c1Triangle).1 = 85.12616 ∧
    (calculate_triangle [] c1Triangle).1 ≠ 85.1566 ∧
    (calculate_triangle [] c1Triangle).2.2.1 = -261.6 ∧
    (calculate_triangle [] c1Triangle).2.2.1 ≠ -566 ∧
    (calc_deviations 0 [usdrubTick, eurusdTick, eurrubTick]).1 = -261.6 := by
  have hv1 : isVirtual usdrubPair = false := by decide
  have hv2 : isVirtual eurusdPair = false := by decide
  have hv3 : isVirtual eurrubPair = false := by decide
  have hbs : ("SELL" == "BUY") = false := rfl
  have hr1 : get_effective_rate [] usdrubPair "BUY" = 79.52 := by
    simp [get_effective_rate, hv1]; rfl
  have hr2 : get_effective_rate [] eurusdPair "BUY" = 1.0705 := by
    simp [get_effective_rate, hv2]; rfl
  have hr3 : get_effective_rate [] eurrubPair "SELL" = 85.10 := by
    simp [get_effective_rate, hv3, hbs]; rfl
  have hcalc :
      (calculate_triangle [] c1Triangle).1 = 85.12616 ∧
      (calculate_triangle [] c1Triangle).2.2.1 = -261.6 := by
    rw [calculate_triangle]
    norm_num [c1Triangle, hr1, hr2, hr3]
  refine ⟨hcalc.1, ?_, hcalc.2, ?_, ?_⟩
  · rw [hcalc.1]; norm_num
  · rw [hcalc.2]; norm_num
  · norm_num [calc_deviations, POINT, ARB_TRIANGLE_FORMULAS,
      usdrubTick, eurusdTick, eurrubTick]

/-- Claim C1 amended: on the spec's snapshot the MUL forward combination
yields synthetic = 79.52 × 1.0705 = 85.12616, market = 85.10 and
deviationPoints = −261.6 exactly; the candidate passes the quote-presence
filter and the deviation threshold (|−261.6| ≥ 2 points), and is excluded
only by the spread filter (the USD/RUB leg alone shows 200 points against
the trader's default bound of 3). -/
theorem c1_amended_worked_example :
    (calculate_triangle [] c1Triangle).1 = 85.12616 ∧
    (calculate_triangle [] c1Triangle).2.1 = 85.10 ∧
    (calculate_triangle [] c1Triangle).2.2.1 = -261.6 ∧
    traderQuotesPresent [] c1Triangle = true ∧
    check_spread 3 usdrubPair = false ∧
    traderSpreadOk 3 c1Triangle = false ∧
    |(calculate_triangle [] c1Triangle).2.2.1| ≥ 2 ∧
    traderEmits [] c1Triangle 3 2 = false := by
  have hv1 : isVirtual usdrubPair = false := by decide
  have hv2 : isVirtual eurusdPair = false := by decide
  have hv3 : isVirtual eurrubPair = false := by decide
  have hbs : ("SELL" == "BUY") = false := rfl
  have hr1 : get_effective_rate [] usdrubPair "BUY" = 79.52 := by
    simp [get_effective_rate, hv1]; rfl
  have hr2 : get_effective_rate [] eurusdPair "BUY" = 1.0705 := by
    simp [get_effective_rate, hv2]; rfl
  have hr3 : get_effective_rate [] eurrubPair "SELL" = 85.10 := by
    simp [get_effective_rate, hv3, hbs]; rfl
  have hcalc :
      (calculate_triangle [] c1Triangle).1 = 85.12616 ∧
      (calculate_triangle [] c1Triangle).2.1 = 85.10 ∧
      (calculate_triangle [] c1Triangle).2.2.1 = -261.6 := by
    rw [calculate_triangle]
    norm_num [c1Triangle, hr1, hr2, hr3]
  have hsp : check_spread 3 usdrubPair = false := by
    rw [check_spread]
    norm_num [usdrubPair]
  have hpresent : traderQuotesPresent [] c1Triangle = true := by
    simp [traderQuotesPresent, c1Triangle, hv1, hv2, hv3]
    norm_num [usdrubPair, eurusdPair, eurrubPair]
  have hspread : traderSpreadOk 3 c1Triangle = false := by
    simp [traderSpreadOk, c1Triangle, hv1, hsp]
  refine ⟨hcalc.1, hcalc.2.1, hcalc.2.2, hpresent, hsp, hspread, ?_, ?_⟩
  · have habs : |(-261.6 : ℚ)| = 261.6 := by
      rw [abs_of_neg] <;> norm_num
    rw [hcalc.2.2, habs]; norm_num
  · simp [traderEmits, hspread]

/-- Claim C7 counterexample: with a nonzero spread (bid 1, ask 2 on all
three legs of the MUL template) the forward deviation is −30000 points while
the reverse deviation is −10000 points, so the two directions are not
sign-mirrors of each other. -/
theorem c7_directions_not_mirrored :
    (calc_deviations 0 [wideTick, wideTick, wideTick]).1 = -30000 ∧
    (calc_deviations 0 [wideTick, wideTick, wideTick]).2.1 = -10000 ∧
    (calc_deviations 0 [wideTick, wideTick, wideTick]).1 ≠
      -(calc_deviations 0 [wideTick, wideTick, wideTick]).2.1 := by
  have h :
      (calc_deviations 0 [wideTick, wideTick, wideTick]).1 = -30000 ∧
      (calc_deviations 0 [wideTick, wideTick, wideTick]).2.1 = -10000 := by
    norm_num [calc_deviations, POINT, ARB_TRIANGLE_FORMULAS, wideTick]
  refine ⟨h.1, h.2, ?_⟩
  rw [h.1, h.2]; norm_num

/-- Helper: in `calc_deviations`, if each leg's bid equals its ask then
`dev_buy = −dev_sell` for every template type (multiplicative and divisional
alike, including the guarded division branches). -/
theorem calc_deviations_mirror_zero_spread (tri : Nat) (t0 t1 t2 : ArbTick)
    (h0 : t0.bid = t0.ask) (h1 : t1.bid = t1.ask) (h2 : t2.bid = t2.ask) :
    (calc_deviations tri [t0, t1, t2]).1 =
      -(calc_deviations tri [t0, t1, t2]).2.1 := by
  rw [calc_deviations]
  norm_num
  rw [h0, h1, h2]
  split
  · ring
  · split
    · rename_i hp
      simp [hp]
      ring
    · rename_i hp
      simp [hp]

/-- Claim C7 amended: the two cited sources behave differently at zero
spread, and neither yields sign-mirrors in general.  In
`arb_calculator.calc_deviations`, if every leg's bid equals its ask the
forward deviation is the exact negation of the reverse one (and with a
nonzero spread they differ, as the counterexample shows).  In
`ArbitrageFinder.calculate_triangle_rate`, both directions compute
`(market − synthetic)/0.0001` with the read sides swapped, so at zero
spread the forward and reverse deviations are equal — not negated — for
the MUL direction pair (BUY,BUY,SELL)/(SELL,SELL,BUY) and the DIV direction
pair (BUY,SELL,SELL)/(SELL,BUY,BUY) the finder builds. -/
theorem c7_zero_spread_directions (tri : Nat) (t0 t1 t2 : ArbTick)
    (p1 p2 p3 : CurrencyPair)
    (h0 : t0.bid = t0.ask) (h1 : t1.bid = t1.ask) (h2 : t2.bid = t2.ask)
    (q1 : p1.bid = p1.ask) (q2 : p2.bid = p2.ask) (q3 : p3.bid = p3.ask) :
    (calc_deviations tri [t0, t1, t2]).1 =
      -(calc_deviations tri [t0, t1, t2]).2.1 ∧
    (calculate_triangle_rate
        { pairs := [p1, p2, p3], operations := ["BUY", "BUY", "SELL"],
          formula_type := "MUL" }).2.2 =
      (calculate_triangle_rate
        { pairs := [p1, p2, p3], operations := ["SELL", "SELL", "BUY"],
          formula_type := "MUL" }).2.2 ∧
    (calculate_triangle_rate
        { pairs := [p1, p2, p3], operations := ["BUY", "SELL", "SELL"],
          formula_type := "DIV" }).2.2 =
      (calculate_triangle_rate
        { pairs := [p1, p2, p3], operations := ["SELL", "BUY", "BUY"],
          formula_type := "DIV" }).2.2 := by
  have hsb : ("SELL" == "BUY") = false := rfl
  refine ⟨calc_deviations_mirror_zero_spread tri t0 t1 t2 h0 h1 h2, ?_, ?_⟩
  · rw [calculate_triangle_rate, calculate_triangle_rate]
    simp [hsb]
    rw [q1, q2, q3]
  · rw [calculate_triangle_rate, calculate_triangle_rate]
    simp [hsb]
    rw [q1, q2, q3]

/-- Witness for the amended C7 on concrete zero-spread quotes (ticks
1/1, pairs 80/80). -/
theorem c7_zero_spread_witness :
    (calc_deviations 0 [flatTick, flatTick, flatTick]).1 =
      -(calc_deviations 0 [flatTick, flatTick, flatTick]).2.1 ∧
    (calculate_triangle_rate
        { pairs := [flatUsdrubPair, flatUsdrubPair, flatUsdrubPair],
          operations := ["BUY", "BUY", "SELL"],
          formula_type := "MUL" }).2.2 =
      (calculate_triangle_rate
        { pairs := [flatUsdrubPair, flatUsdrubPair, flatUsdrubPair],
          operations := ["SELL", "SELL", "BUY"],
          formula_type := "MUL" }).2.2 ∧
    (calculate_triangle_rate
        { pairs := [flatUsdrubPair, flatUsdrubPair, flatUsdrubPair],
          operations := ["BUY", "SELL", "SELL"],
          formula_type := "DIV" }).2.2 =
      (calculate_triangle_rate
        { pairs := [flatUsdrubPair, flatUsdrubPair, flatUsdrubPair],
          operations := ["SELL", "BUY", "BUY"],
          formula_type := "DIV" }).2.2 :=
  c7_zero_spread_directions 0 flatTick flatTick flatTick flatUsdrubPair
    flatUsdrubPair flatUsdrubPair rfl rfl rfl rfl rfl rfl

/-- Claim C9 counterexample: for the virtual RUB/USD leg over the underlying
USD/RUB quote 79.50/79.52 the scanner's effective BUY rate is 1/79.52 while
the executor records 1/79.50 as the BUY entry price, and the two differ. -/
theorem c9_scanner_executor_rate_mismatch :
    get_effective_rate [usdrubPair] rubUsdVirtual "BUY" = 1 / 79.52 ∧
    execEntryPrice [usdrubPair] rubUsdVirtual "BUY" = some (1 / 79.50) ∧
    (1 / 79.52 : ℚ) ≠ 1 / 79.50 := by
  have hv : isVirtual rubUsdVirtual = true := by decide
  have hfind : findRealPair [usdrubPair] rubUsdVirtual = some usdrubPair := rfl
  refine ⟨?_, ?_, by norm_num⟩
  · rw [get_effective_rate, hv]
    simp only [if_true]
    rw [hfind]
    norm_num [usdrubPair]
  · rw [execEntryPrice, hv]
    simp only [if_true]
    rw [hfind]
    norm_num [usdrubPair]

/-- Claim C9 amended: for a virtual leg the scanner and the executor read
opposite sides of the underlying quote (scanner BUY → 1/ask, SELL → 1/bid;
executor BUY → 1/bid, SELL → 1/ask), so the recorded entry price equals the
scanner's effective rate exactly when the underlying quote has bid = ask;
under that zero-spread hypothesis they agree for both operations. -/
theorem c9_rates_agree_under_zero_spread
    (pairs : List CurrencyPair) (p real : CurrencyPair)
    (hv : isVirtual p = true)
    (hfind : findRealPair pairs p = some real)
    (heq : real.bid = real.ask) :
    execEntryPrice pairs p "BUY" = some (get_effective_rate pairs p "BUY") ∧
    execEntryPrice pairs p "SELL" = some (get_effective_rate pairs p "SELL") := by
  rw [execEntryPrice, execEntryPrice, get_effective_rate, get_effective_rate,
    hv]
  simp only [if_true]
  rw [hfind]
  simp [heq]

/-- Witness for the amended C9 on the zero-spread USD/RUB quote. -/
theorem c9_rates_agree_witness :
    execEntryPrice [flatUsdrubPair] rubUsdVirtual "BUY" =
      some (get_effective_rate [flatUsdrubPair] rubUsdVirtual "BUY") ∧
    execEntryPrice [flatUsdrubPair] rubUsdVirtual "SELL" =
      some (get_effective_rate [flatUsdrubPair] rubUsdVirtual "SELL") :=
  c9_rates_agree_under_zero_spread [flatUsdrubPair] rubUsdVirtual
    flatUsdrubPair (by decide) rfl rfl

/-- Claim C5 counterexample: the snapshot 100.0000/100.0001, 1.0000/1.0001,
100.0098/100.0099 passes the validity filter and the spread filter (every
spread is 1 point against the bound of 2), and both directional deviations
are negative — dev_buy = −3.0001, dev_sell = −99 — so
`|deviationPoints| ≥ MinDeviationPoints = 2` holds for either direction and
the claim demands emission; yet `calcEmitOpp` emits nothing, because the
code tests each direction's signed deviation with `> MinDeviation` and
never takes an absolute value.  No compared quantity is within a tenth of a
point of its threshold, so the float program takes the same branches. -/
theorem c5_negative_deviations_not_emitted :
    ([c5Tick0, c5Tick1, c5Tick2].all ArbTick.is_valid) = true ∧
    check_spreads [c5Tick0, c5Tick1, c5Tick2] defaultArbConfig.MaxSpread
      = true ∧
    (calc_deviations 0 [c5Tick0, c5Tick1, c5Tick2]).1 = -3.0001 ∧
    (calc_deviations 0 [c5Tick0, c5Tick1, c5Tick2]).2.1 = -99 ∧
    defaultArbConfig.MinDeviation = 2 ∧
    |(calc_deviations 0 [c5Tick0, c5Tick1, c5Tick2]).1| ≥
      defaultArbConfig.MinDeviation ∧
    calcEmitOpp 0 [c5Tick0, c5Tick1, c5Tick2] defaultArbConfig = none := by
  have hvalid : ([c5Tick0, c5Tick1, c5Tick2].all ArbTick.is_valid) = true := by
    norm_num [ArbTick.is_valid, c5Tick0, c5Tick1, c5Tick2]
  have hms : defaultArbConfig.MaxSpread = 2 := by norm_num [defaultArbConfig]
  have hmd : defaultArbConfig.MinDeviation = 2 := by
    norm_num [defaultArbConfig]
  have hsp : check_spreads [c5Tick0, c5Tick1, c5Tick2]
      defaultArbConfig.MaxSpread = true := by
    rw [hms]
    norm_num [check_spreads, ArbTick.spread_points, c5Tick0, c5Tick1, c5Tick2]
  have hdev : calc_deviations 0 [c5Tick0, c5Tick1, c5Tick2]
      = (-3.0001, -99, "MUL") := by
    rw [calc_deviations]
    norm_num [ARB_TRIANGLE_FORMULAS, POINT, c5Tick0, c5Tick1, c5Tick2]
  have hempty : ([c5Tick0, c5Tick1, c5Tick2].isEmpty) = false := rfl
  have habs : |(-3.0001 : ℚ)| = 3.0001 := by
    rw [abs_of_neg] <;> norm_num
  refine ⟨hvalid, hsp, by rw [hdev], by rw [hdev], hmd, ?_, ?_⟩
  · rw [hdev, hmd]
    simp only []
    rw [habs]
    norm_num
  · rw [calcEmitOpp]
    rw [hempty, hvalid, hsp, hdev, hmd]
    norm_num

/-- Claim C5 amended: the two scanners test deviations differently.  For a
triangle that passes its quote-presence and spread filters the trader emits
iff `|deviationPoints| ≥ min_deviation_points`, exactly as the claim states;
but `arb_calculator`'s per-template decision emits iff `dev_buy >
MinDeviation` or, failing that, `dev_sell > MinDeviation` — each direction's
own signed deviation, with no absolute value — so a candidate whose
deviations are negative in both directions is never emitted there, however
large `|deviationPoints|` is. -/
theorem c5_emission_characterised
    (pairs : List CurrencyPair) (t : Triangle) (ms md : ℚ)
    (tri : Nat) (ticks : List ArbTick) (config : ArbConfig)
    (hpresent : traderQuotesPresent pairs t = true)
    (hspread : traderSpreadOk ms t = true)
    (hticks : ticks.isEmpty = false)
    (hvalid : ticks.all ArbTick.is_valid = true)
    (hsp : check_spreads ticks config.MaxSpread = true) :
    (traderEmits pairs t ms md = true ↔
      |(calculate_triangle pairs t).2.2.1| ≥ md) ∧
    ((calcEmitOpp tri ticks config).isSome = true ↔
      ((calc_deviations tri ticks).1 > config.MinDeviation ∨
        (calc_deviations tri ticks).2.1 > config.MinDeviation)) := by
  constructor
  · rw [traderEmits, hpresent, hspread]
    simp
  · rw [calcEmitOpp, hticks, hvalid, hsp]
    simp only [Bool.false_or, Bool.not_true, Bool.false_eq_true, if_false]
    split_ifs with hbuy hsell
    · simp [hbuy]
    · simp [hsell]
    · simp [hbuy, hsell]

/-- Witness for the amended C5: the three-leg USD/RUB × EUR/USD = EUR/RUB
triangle of the worked example passes the trader's quote-presence filter and
its spread filter under a bound of 1000 points, and the concrete three-tick
snapshot passes the calculator's validity and spread filters; the
instantiated characterizations follow. -/
theorem c5_emission_witness :
    (traderEmits [] c1Triangle 1000 2 = true ↔
      |(calculate_triangle [] c1Triangle).2.2.1| ≥ 2) ∧
    ((calcEmitOpp 0 [c5Tick0, c5Tick1, c5Tick2] defaultArbConfig).isSome
        = true ↔
      ((calc_deviations 0 [c5Tick0, c5Tick1, c5Tick2]).1 >
          defaultArbConfig.MinDeviation ∨
        (calc_deviations 0 [c5Tick0, c5Tick1, c5Tick2]).2.1 >
          defaultArbConfig.MinDeviation)) :=
  c5_emission_characterised [] c1Triangle 1000 2 0
    [c5Tick0, c5Tick1, c5Tick2] defaultArbConfig
    (by
      have hv1 : isVirtual usdrubPair = false := by decide
      have hv2 : isVirtual eurusdPair = false := by decide
      have hv3 : isVirtual eurrubPair = false := by decide
      simp [traderQuotesPresent, c1Triangle, hv1, hv2, hv3]
      norm_num [usdrubPair, eurusdPair, eurrubPair])
    (by
      have hv1 : isVirtual usdrubPair = false := by decide
      have hv2 : isVirtual eurusdPair = false := by decide
      have hv3 : isVirtual eurrubPair = false := by decide
      simp [traderSpreadOk, c1Triangle, hv1, hv2, hv3, check_spread]
      norm_num [usdrubPair, eurusdPair, eurrubPair])
    rfl
    (by norm_num [ArbTick.is_valid, c5Tick0, c5Tick1, c5Tick2])
    (by norm_num [check_spreads, ArbTick.spread_points, defaultArbConfig,
      c5Tick0, c5Tick1, c5Tick2])

/-- Helper: the slot `findIdx?` returns satisfies the searched predicate, so
the found free slot really is inactive. -/
theorem findIdx?_active_getD (l : List ArbTriangle) (i : Nat)
    (h : (l.findIdx? fun t => !t.active) = some i) :
    (l.getD i default).active = false := by
  rw [List.findIdx?_eq_some_iff_getElem] at h
  obtain ⟨hlen, hp, -⟩ := h
  rw [List.getD_eq_getElem?_getD, List.getElem?_eq_getElem hlen]
  simpa using hp

/-- Claim C3: in real trading mode, when a free slot exists and legs 0 and 1
are placed (tickets `tk0`, `tk1`) but leg 2 fails (no order id or an
exception), `open_triangle` cancels exactly the two placed tickets in
placement order, returns failure, and leaves the slot table unchanged — the
found slot is still free and the active-slot count equals its value before
the call. -/
theorem c3_third_leg_failure_rolls_back (triangles : List ArbTriangle)
    (config : ArbConfig) (opp : ArbOpportunity) (comp : Bool) (parent : Int)
    (place : Nat → Option String) (now : Int) (slot : Nat) (tk0 tk1 : String)
    (hpaper : config.PaperTrading = false)
    (hslot : (triangles.findIdx? fun t => !t.active) = some slot)
    (hp0 : place 0 = some tk0) (hp1 : place 1 = some tk1)
    (hp2 : place 2 = none) :
    (open_triangle triangles config opp comp parent place now).result
      = none ∧
    (open_triangle triangles config opp comp parent place now).cancels
      = [tk0, tk1] ∧
    (open_triangle triangles config opp comp parent place now).triangles
      = triangles ∧
    activeCount
        (open_triangle triangles config opp comp parent place now).triangles
      = activeCount triangles ∧
    (((open_triangle triangles config opp comp parent place now).triangles.getD
        slot default).active) = false := by
  have hlegs : placeLegs false slot now place [0, 1, 2] [] = Sum.inl [tk0, tk1] := by
    simp [placeLegs, hp0, hp1, hp2]
  have hout : open_triangle triangles config opp comp parent place now =
      { result := none, cancels := [tk0, tk1], triangles := triangles } := by
    rw [open_triangle]
    simp only [hslot, hpaper, hlegs]
  rw [hout]
  exact ⟨rfl, rfl, rfl, rfl, findIdx?_active_getD triangles slot hslot⟩

/-- Witness for C3: one free slot, tickets A and B placed, leg 2 failing;
the rollback cancels exactly A and B and the table is untouched. -/
theorem c3_rollback_witness :
    (open_triangle c3Slots defaultArbConfig c3Opp false (-1) c3Place 0).result
      = none ∧
    (open_triangle c3Slots defaultArbConfig c3Opp false (-1) c3Place 0).cancels
      = ["A", "B"] ∧
    (open_triangle c3Slots defaultArbConfig c3Opp false (-1) c3Place 0).triangles
      = c3Slots ∧
    activeCount
        (open_triangle c3Slots defaultArbConfig c3Opp false (-1) c3Place 0).triangles
      = activeCount c3Slots ∧
    (((open_triangle c3Slots defaultArbConfig c3Opp false (-1) c3Place
        0).triangles.getD 0 default).active) = false :=
  c3_third_leg_failure_rolls_back c3Slots defaultArbConfig c3Opp false (-1)
    c3Place 0 0 "A" "B" rfl rfl rfl rfl rfl

/-- Helper: folding a sequence of quote updates over any initial cache and
then reading symbol `sym` yields the tick built from the most recent update
for `sym`, falling back to the initial cache when there is none. -/
theorem foldl_applyUpdate_eq (updates : List QuoteUpdate)
    (m : String → Option ArbTick) (sym : String) :
    updates.foldl applyUpdate m sym =
      match updates.reverse.find? fun u => u.symbol == sym with
      | some u => some (tickOfUpdate u)
      | none => m sym := by
  induction updates generalizing m with
  | nil => simp
  | cons u us ih =>
    rw [List.foldl_cons, ih (applyUpdate m u), List.reverse_cons,
      List.find?_append]
    cases h : us.reverse.find? fun v => v.symbol == sym with
    | some v => simp [h]
    | none =>
      simp only [h, Option.none_or]
      by_cases he : u.symbol = sym
      · subst he
        simp [List.find?, applyUpdate]
      · have hbe : (u.symbol == sym) = false := by simp [he]
        have hne : ¬(sym = u.symbol) := fun hh => he hh.symm
        simp [List.find?, hbe, applyUpdate, hne]

/-- Claim C8: the quote cache is last-write-wins and tear-free.  After any
sequence of updates a read returns either `none` or exactly the tick built
from the single most recent update for that symbol — every field coming
from that one update, never merged across updates; handling a new update
replaces the symbol's entire entry; and `get_tick` exposes exactly that
per-symbol view through the currency table. -/
theorem c8_cache_last_write_wins :
    (∀ (updates : List QuoteUpdate) (sym : String),
      cacheAfter updates sym =
        (updates.reverse.find? fun u => u.symbol == sym).map tickOfUpdate) ∧
    (∀ (updates : List QuoteUpdate) (u : QuoteUpdate),
      cacheAfter (updates ++ [u]) u.symbol = some (tickOfUpdate u)) ∧
    (∀ (updates : List QuoteUpdate) (currency : String),
      get_tick updates currency =
        match ARB_CURRENCY_PAIRS.lookup currency with
        | some symbol =>
            (updates.reverse.find? fun u => u.symbol == symbol).map
              tickOfUpdate
        | none => none) := by
  have hchar : ∀ (updates : List QuoteUpdate) (sym : String),
      cacheAfter updates sym =
        (updates.reverse.find? fun u => u.symbol == sym).map tickOfUpdate := by
    intro updates sym
    rw [cacheAfter, foldl_applyUpdate_eq]
    cases h : updates.reverse.find? fun u => u.symbol == sym with
    | some v => simp [h]
    | none => simp [h]
  refine ⟨hchar, ?_, ?_⟩
  · intro updates u
    rw [cacheAfter, List.foldl_append, List.foldl_cons, List.foldl_nil]
    simp [applyUpdate]
  · intro updates currency
    rw [get_tick]
    cases h : ARB_CURRENCY_PAIRS.lookup currency with
    | some symbol => simp only [h, hchar]
    | none => simp only [h]

/-- Helper: in a duplicate-free list two elements cannot occur in both
relative orders. -/
theorem sublist_pair_asymm {α : Type} : ∀ (l : List α), l.Nodup →
    ∀ a b : α, List.Sublist [a, b] l → List.Sublist [b, a] l → a = b := by
  intro l
  induction l with
  | nil =>
    intro _ a b hab
    exact absurd hab (by simp)
  | cons x t ih =>
    intro hnd a b hab hba
    rw [List.nodup_cons] at hnd
    cases hab with
    | cons _ hab2 =>
      cases hba with
      | cons _ hba2 => exact ih hnd.2 a b hab2 hba2
      | cons₂ hba2 =>
        exact absurd (hab2.subset (by simp)) hnd.1
    | cons₂ hab2 =>
      cases hba with
      | cons _ hba2 =>
        exact absurd (hba2.subset (by simp)) hnd.1
      | cons₂ hba2 => rfl

/-- Helper: two distinct members of a list occur in one of the two relative
orders. -/
theorem pair_sublist_of_mem {α : Type} : ∀ (l : List α) (a b : α),
    a ∈ l → b ∈ l → a ≠ b → List.Sublist [a, b] l ∨ List.Sublist [b, a] l := by
  intro l
  induction l with
  | nil => simp
  | cons x t ih =>
    intro a b ha hb hne
    rcases List.mem_cons.mp ha with rfl | hat
    · have hbt : b ∈ t := by
        rcases List.mem_cons.mp hb with rfl | h
        · exact absurd rfl hne
        · exact h
      exact Or.inl (List.Sublist.cons₂ a (List.singleton_sublist.mpr hbt))
    · rcases List.mem_cons.mp hb with rfl | hbt
      · exact Or.inr (List.Sublist.cons₂ b (List.singleton_sublist.mpr hat))
      · rcases ih a b hat hbt hne with h | h
        · exact Or.inl (h.cons x)
        · exact Or.inr (h.cons x)

/-- Helper: an opportunity emitted for template `tri` carries `tri` as its
triangle type. -/
theorem calcEmitOpp_triangle_type (tri : Nat) (ticks : List ArbTick)
    (config : ArbConfig) (x : ArbOpportunity)
    (h : calcEmitOpp tri ticks config = some x) : x.triangle_type = tri := by
  simp only [calcEmitOpp] at h
  split_ifs at h
  · cases h
    rfl
  · cases h
    rfl

/-- Helper: the whole per-template step of `find_opportunities` (the
active-template skip, the tick fetch and the emission) only emits
opportunities carrying their own template index. -/
theorem scanStep_triangle_type (ts : List ArbTriangle)
    (gt : Nat → Option (List ArbTick)) (config : ArbConfig) (tri : Nat)
    (x : ArbOpportunity)
    (h : (if ts.any fun t => t.active && t.triangle_type == Int.ofNat tri
          then none
          else (gt tri).bind fun ticks => calcEmitOpp tri ticks config)
        = some x) :
    x.triangle_type = tri := by
  split at h
  · exact absurd h (by simp)
  · rcases Option.bind_eq_some.mp h with ⟨ticks, -, h2⟩
    exact calcEmitOpp_triangle_type tri ticks config x h2

/-- Helper: the stable descending sort of a list whose template indices
strictly increase is non-increasing in `|deviation|`, and equal-deviation
entries keep their ascending template-index order. -/
theorem opportunitySort_sorted_stable (pre : List ArbOpportunity)
    (hpw : pre.Pairwise fun a b => a.triangle_type < b.triangle_type) :
    (opportunitySort pre).Pairwise fun a b =>
      |b.deviation| ≤ |a.deviation| ∧
        (|a.deviation| = |b.deviation| →
          a.triangle_type < b.triangle_type) := by
  have trans : ∀ a b c : ArbOpportunity,
      decide (|b.deviation| ≤ |a.deviation|) = true →
      decide (|c.deviation| ≤ |b.deviation|) = true →
      decide (|c.deviation| ≤ |a.deviation|) = true := by
    intro a b c h1 h2
    rw [decide_eq_true_eq] at h1 h2 ⊢
    exact le_trans h2 h1
  have total : ∀ a b : ArbOpportunity,
      (decide (|b.deviation| ≤ |a.deviation|) ||
        decide (|a.deviation| ≤ |b.deviation|)) = true := by
    intro a b
    rcases le_total |b.deviation| |a.deviation| with h | h <;> simp [h]
  have hne : pre.Pairwise (· ≠ ·) :=
    hpw.imp fun {a b} h heq => absurd (heq ▸ h) (lt_irrefl _)
  have hperm :=
    List.mergeSort_perm pre fun a b => decide (|b.deviation| ≤ |a.deviation|)
  have hnodup_out :
      (pre.mergeSort fun a b =>
        decide (|b.deviation| ≤ |a.deviation|)).Nodup :=
    hperm.symm.nodup hne
  rw [opportunitySort, List.pairwise_iff_forall_sublist]
  intro a b hab
  constructor
  · have hs :=
      List.pairwise_iff_forall_sublist.mp
        (List.sorted_mergeSort trans total pre) hab
    rwa [decide_eq_true_eq] at hs
  · intro heq
    have hamem : a ∈ pre := List.mem_mergeSort.mp (hab.subset (by simp))
    have hbmem : b ∈ pre := List.mem_mergeSort.mp (hab.subset (by simp))
    have hne_ab : a ≠ b :=
      List.pairwise_iff_forall_sublist.mp hnodup_out hab
    rcases pair_sublist_of_mem pre a b hamem hbmem hne_ab with hord | hord
    · exact List.pairwise_iff_forall_sublist.mp hpw hord
    · have hle_ba : decide (|a.deviation| ≤ |b.deviation|) = true := by
        rw [decide_eq_true_eq, heq]
      have hout_ba := List.pair_sublist_mergeSort trans total hle_ba hord
      exact absurd (sublist_pair_asymm _ hnodup_out a b hab hout_ba) hne_ab

/-- Claim C6: on every scan tick the list `find_opportunities` returns is in
non-increasing `|deviation|` order, and any two entries with equal
`|deviation|` appear in ascending template-index order (the stable sort
keeps the build order, which visits templates in ascending index order and
emits at most one opportunity per template). -/
theorem c6_opportunities_sorted (triangles_state : List ArbTriangle)
    (get_ticks : Nat → Option (List ArbTick)) (config : ArbConfig) :
    (find_opportunities triangles_state get_ticks config).Pairwise
      fun a b =>
        |b.deviation| ≤ |a.deviation| ∧
          (|a.deviation| = |b.deviation| →
            a.triangle_type < b.triangle_type) := by
  by_cases hfull :
      (triangles_state.filter (·.active)).length ≥ config.MaxTriangles
  · simp [find_opportunities, hfull]
  · rw [find_opportunities]
    simp only [hfull, if_false]
    apply opportunitySort_sorted_stable
    rw [List.pairwise_filterMap]
    apply List.Pairwise.imp ?_ (List.pairwise_lt_range _)
    intro t1 t2 hlt x hx y hy
    rw [scanStep_triangle_type triangles_state get_ticks config t1 x hx,
      scanStep_triangle_type triangles_state get_ticks config t2 y hy]
    exact hlt

end FinamArb
